import Mathlib

/-!
Verification development for the credit-scoring dashboard (app.py).

The dashboard is a single straight-line Streamlit script.  We shallowly embed
the parts of it that carry logic: the startup checks, the feature-vector
extraction, the two outbound HTTP calls, the age-group filter with its three
aggregates, the gauge colouring rule, and the control flow of the big
analysis block (which sections render, which errors abort).

Modelling conventions:
* pandas cell values are modelled by `Val` (a rational number or a string);
  floating point numbers are modelled by rationals, NaN results of empty
  aggregations by `Option.none`.
* a pandas row (`client_row`, a Series) is a list of (column name, value)
  pairs in column order; the frame `test_clients` is a list of such rows.
* remote HTTP calls are modelled by their outcome (`CallOutcome`): the
  request raised, or it returned a status code together with an optionally
  parseable body.
* Streamlit render calls are modelled as an ordered list of `RenderEvent`s;
  `st.stop` / an exception caught by the outer handler truncates the list.
-/

/-- A pandas cell value: a numeric value (float, modelled as a rational) or a
string (the `DECISION` column holds strings). -/
inductive Val where
  | num (q : ℚ)
  | str (s : String)
deriving DecidableEq

/-- One row of the `test_clients` frame, as the Series `client_row`:
(column name, value) pairs in the column order of the CSV. -/
abbrev Row : Type := List (String × Val)

/-- The loaded frame `test_clients`: a list of rows. -/
abbrev Table : Type := List Row

/-- Label-based access `row[c]` on a Series (first matching column). -/
def rowGet (r : Row) (c : String) : Option Val :=
  (r.find? (fun p => decide (p.1 = c))).map Prod.snd

/-- Numeric access: `row[c]` when the cell holds a number. -/
def getNum (r : Row) (c : String) : Option ℚ :=
  match rowGet r c with
  | some (Val.num q) => some q
  | _ => none

/-- app.py line 121: the four reserved non-feature columns. -/
def features_to_drop : List String :=
  ["SK_ID_CURR", "RISK_SCORE", "DECISION", "REAL_TARGET"]

/-- app.py line 122: `[col for col in client_row.index if col not in
features_to_drop]` — the feature column names in table order. -/
def features_list (row : Row) : List String :=
  (row.map Prod.fst).filter (fun c => decide (c ∉ features_to_drop))

/-- app.py line 123: `client_row[features_list].values.tolist()` — the feature
values in table order, the four reserved columns dropped. -/
def features (row : Row) : List Val :=
  (row.filter (fun p => decide (p.1 ∉ features_to_drop))).map Prod.snd

/-- Concrete witness row: four reserved columns plus two feature columns. -/
def exRow : Row :=
  [("SK_ID_CURR", Val.num 100001), ("RISK_SCORE", Val.num (1/20)),
   ("DECISION", Val.str "ACCORD"), ("REAL_TARGET", Val.num 0),
   ("DAYS_BIRTH", Val.num (-14610)), ("EXT_SOURCE_1", Val.num (1/2))]

/-- Concrete witness table holding only `exRow` (derived age 40 years). -/
def exTable : Table := [exRow]

/-- pandas `Series.mean()`: the arithmetic mean, or NaN (modelled as `none`)
on an empty series. -/
def seriesMean (l : List ℚ) : Option ℚ :=
  if l.isEmpty then none else some (l.sum / l.length)

/-- Numeric column extraction `t[c]` (non-numeric / absent cells skipped, as
pandas mean does with skipna). -/
def colNum (t : Table) (c : String) : List ℚ :=
  t.filterMap (fun r => getNum r c)

/-- app.py lines 345 and 349: derived age in years, `-DAYS_BIRTH / 365.25`
(365.25 is the rational 1461/4). -/
def rowAge (r : Row) : Option ℚ :=
  (getNum r "DAYS_BIRTH").map (fun d => -d / (1461/4))

/-- app.py lines 348-351: the age-filtered comparison subset.  Rows whose
derived age is unavailable compare as false, as NaN does in pandas. -/
def similar_clients (t : Table) (ageMin ageMax : ℚ) : Table :=
  t.filter (fun r =>
    match rowAge r with
    | some a => decide (ageMin ≤ a) && decide (a ≤ ageMax)
    | none => false)

/-- app.py line 359: mean risk of the filtered subset. -/
def avg_risk (t : Table) : Option ℚ :=
  seriesMean (colNum t "RISK_SCORE")

/-- app.py line 368: `(similar_clients["DECISION"] == "ACCORD").mean()` —
the mean of the 0/1 indicator over all rows of the subset. -/
def approval_rate (t : Table) : Option ℚ :=
  seriesMean (t.map (fun r =>
    if rowGet r "DECISION" = some (Val.str "ACCORD") then (1 : ℚ) else 0))

/-- app.py line 376: mean ground-truth default rate of the filtered subset. -/
def default_rate (t : Table) : Option ℚ :=
  seriesMean (colNum t "REAL_TARGET")

/-- Outcome of an outbound HTTP call: the request raised an exception, or it
returned a status code together with an optionally parseable JSON body. -/
inductive CallOutcome (α : Type) where
  | raised
  | resp (status : ℕ) (body : Option α)
deriving DecidableEq

/-- Parsed body of a 200 answer of `POST /predict` (the script reads the
fields `risk_score` and `decision`). -/
structure PredictResult where
  risk_score : ℚ
  decision : String
deriving DecidableEq

/-- Parsed body of a 200 answer of `POST /explain` (fields `top_features`
and `interpretation`). -/
structure ExplainPayload where
  top_features : List (String × ℚ × String)
  interpretation : String
deriving DecidableEq

/-- One Streamlit render call of the analysis flow. -/
inductive RenderEvent where
  | errorMsg (s : String)
  | warningMsg (s : String)
  | infoMsg (s : String)
  | successMsg (s : String)
  | headerMsg (s : String)
  | sectionHeader (n : ℕ)
  | metric (label : String) (value : Option ℚ)
  | groupCount (n : ℕ)
  | metricStr (label : String) (value : String)
  | gauge (barColor : String)
  | chart (name : String)
  | scatterSample (rows : Table)
deriving DecidableEq

/-- The rendered event trace of one click of the ANALYSER button, plus
whether the `POST /explain` request was issued (app.py line 387 reached). -/
structure AnalysisOutput where
  events : List RenderEvent
  explainCalled : Bool
deriving DecidableEq

/-- app.py line 186: the gauge bar colour,
`"#FF4B4B" if risk >= OPTIMAL_THRESHOLD else "#00CC00"`. -/
def gaugeBarColor (risk threshold : ℚ) : String :=
  if threshold ≤ risk then "#FF4B4B" else "#00CC00"

/-- Modelled from the spec: the decision contract of the remote `/predict`
endpoint (not in this repository) — decision is ACCORD iff the risk score is
strictly below the threshold, else REFUS. -/
def decision_rule (risk threshold : ℚ) : String :=
  if risk < threshold then "ACCORD" else "REFUS"

/-- app.py line 129: timeout of the `POST /predict` request. -/
def predict_timeout : ℕ := 10

/-- app.py line 387: timeout of the `POST /explain` request. -/
def explain_timeout : ℕ := 10

/-- app.py line 128: body of the `POST /predict` request. -/
def predict_request_body (row : Row) : List Val := features row

/-- app.py line 387: body of the `POST /explain` request — the same local
variable `features` is serialized again. -/
def explain_request_body (row : Row) : List Val := features row

/-- app.py line 153: the coloured dot next to the decision metric. -/
def decisionColor (decision : String) : String :=
  if decision = "ACCORD" then "green" else "red"

/-- app.py line 169: ground-truth label (REAL_TARGET holds 0 or 1). -/
def real_target_label (rt : ℚ) : String :=
  if rt = 1 then "Defaut" else "Rembourse"

/-- app.py lines 140-174: section 1, the four headline metrics. -/
def section1Events (risk threshold : ℚ) (decision : String) (rt : ℚ) :
    List RenderEvent :=
  [.sectionHeader 1,
   .metric "Risque de Defaut" (some risk),
   .metricStr "Decision" (decisionColor decision ++ " " ++ decision),
   .metric "Seuil decisionnel" (some threshold),
   .metricStr "Statut reel" (real_target_label rt)]

/-- app.py lines 176-209: section 2, the risk gauge. -/
def section2Events (risk threshold : ℚ) : List RenderEvent :=
  [.sectionHeader 2, .gauge (gaugeBarColor risk threshold)]

/-- app.py lines 211-279: section 3, histogram and decision pie chart. -/
def section3Events : List RenderEvent :=
  [.sectionHeader 3, .chart "histogram", .chart "pie"]

/-- A column name is present in the frame. -/
def tableHasCol (t : Table) (c : String) : Bool :=
  t.any (fun r => r.any (fun p => decide (p.1 = c)))

/-- Linear congruential step driving the modelled sampler. -/
def lcgNext (s : ℕ) : ℕ := (s * 1103515245 + 12345) % 2147483648

/-- Deterministic pseudo-random selection of `n` rows without replacement,
driven by seed `s`. -/
def sampleGo : ℕ → ℕ → Table → Table
  | _, 0, _ => []
  | _, _ + 1, [] => []
  | s, n + 1, r :: rs =>
    (r :: rs).getD (s % (r :: rs).length) r ::
      sampleGo (lcgNext s) n ((r :: rs).eraseIdx (s % (r :: rs).length))

/-- app.py line 309: `sample_size = min(1000, len(test_clients))`. -/
def sample_size (t : Table) : ℕ := min 1000 t.length

/-- app.py line 310: `test_clients.sample(n=sample_size, random_state=42)`.
pandas sampling with a fixed `random_state` is a deterministic function of
the frame, the sample size and the seed; it is modelled by an explicit
deterministic pseudo-random selection without replacement, seeded with the
42 hard-coded in the source. -/
def sampleTable (t : Table) : Table := sampleGo 42 (sample_size t) t

/-- app.py lines 281-338: section 4, the bi-variate scatter plot over the
seeded sample. -/
def section4Events (t : Table) : List RenderEvent :=
  [.sectionHeader 4, .scatterSample (sampleTable t), .chart "scatter"]

/-- app.py lines 340-381: section 5, comparison with the age-filtered group;
the whole block is guarded by `if "DAYS_BIRTH" in test_clients.columns`. -/
def section5Events (t : Table) (ageF : ℕ × ℕ) : List RenderEvent :=
  if tableHasCol t "DAYS_BIRTH" then
    [.sectionHeader 5,
     .groupCount (similar_clients t (ageF.1 : ℚ) (ageF.2 : ℚ)).length,
     .metric "Risque moyen du groupe" (avg_risk (similar_clients t (ageF.1 : ℚ) (ageF.2 : ℚ))),
     .metric "Taux acceptation" (approval_rate (similar_clients t (ageF.1 : ℚ) (ageF.2 : ℚ))),
     .metric "Taux de defaut reel" (default_rate (similar_clients t (ageF.1 : ℚ) (ageF.2 : ℚ)))]
  else []

/-- app.py lines 383-410: section 6, the explanation call and its rendering;
the subheader is printed before the guarded call, every failure path inside
the try block ends in a soft `st.info` message. -/
def section6Events (eOut : CallOutcome ExplainPayload) : List RenderEvent :=
  RenderEvent.sectionHeader 6 ::
  match eOut with
  | .raised => [.infoMsg "Feature importance locale non disponible"]
  | .resp status body =>
    if status = 200 then
      match body with
      | some p => [.chart "shap", .infoMsg p.interpretation]
      | none => [.infoMsg "Feature importance locale non disponible"]
    else [.infoMsg "Explication detaillee non disponible"]

/-- app.py lines 412-428: section 7, the final synthesis (st.success for
ACCORD, st.error for REFUS). -/
def section7Events (decision : String) : List RenderEvent :=
  RenderEvent.sectionHeader 7 ::
  (if decision = "ACCORD" then [.successMsg "Credit Accorde"]
   else [.errorMsg "Credit Refuse"])

/-- app.py line 434: the broad outer exception handler. -/
def analysisErrorEvent : RenderEvent := .errorMsg "Erreur lors de analyse"

/-- app.py line 431: non-200 status of the predict call. -/
def apiErrorEvent (status : ℕ) : RenderEvent :=
  .errorMsg ("Erreur API : " ++ toString status)

/-- Everything rendered between the 200 predict answer and the explanation
call: header and sections 1-5, in source order. -/
def preExplainEvents (t : Table) (risk threshold : ℚ) (decision : String)
    (rt : ℚ) (ageF : ℕ × ℕ) : List RenderEvent :=
  RenderEvent.headerMsg "Analyse du Client" ::
  (section1Events risk threshold decision rt ++ section2Events risk threshold ++
   section3Events ++ section4Events t ++ section5Events t ageF)

/-- app.py lines 132-428: rendering after a 200 predict answer.  The data
accesses that can raise inside the block (REAL_TARGET at line 168, DECISION
at line 262, the selected feature columns at lines 312-324) truncate the
trace and fall to the outer handler; the full trace is sections 1-7 with the
explanation call issued. -/
def renderAfterPredict (t : Table) (row : Row) (threshold : ℚ)
    (result : PredictResult) (ageF : ℕ × ℕ) (fx fy : String)
    (eOut : CallOutcome ExplainPayload) : AnalysisOutput :=
  match getNum row "REAL_TARGET" with
  | none =>
    ⟨[.headerMsg "Analyse du Client", .sectionHeader 1,
      .metric "Risque de Defaut" (some result.risk_score),
      .metricStr "Decision" (decisionColor result.decision ++ " " ++ result.decision),
      .metric "Seuil decisionnel" (some threshold), analysisErrorEvent], false⟩
  | some rt =>
    match rowGet row "DECISION" with
    | none =>
      ⟨(RenderEvent.headerMsg "Analyse du Client" ::
        (section1Events result.risk_score threshold result.decision rt ++
         section2Events result.risk_score threshold ++
         [.sectionHeader 3, .chart "histogram"])) ++ [analysisErrorEvent], false⟩
    | some _ =>
      match rowGet row fx, rowGet row fy with
      | some _, some _ =>
        ⟨preExplainEvents t result.risk_score threshold result.decision rt ageF ++
          section6Events eOut ++ section7Events result.decision, true⟩
      | _, _ =>
        ⟨(RenderEvent.headerMsg "Analyse du Client" ::
          (section1Events result.risk_score threshold result.decision rt ++
           section2Events result.risk_score threshold ++ section3Events ++
           [.sectionHeader 4])) ++ [analysisErrorEvent], false⟩

/-- app.py line 119: `test_clients[test_clients["SK_ID_CURR"] ==
selected_client_id].iloc[0]`; `none` when `.iloc[0]` would raise. -/
def findClientRow (t : Table) (cid : ℚ) : Option Row :=
  (t.filter (fun r => decide (getNum r "SK_ID_CURR" = some cid))).head?

/-- app.py lines 115-434: one click of the ANALYSER button.  The inputs are
the cached frame, the selected identifier, the threshold, the two sidebar
range filters, the two scatter feature choices and the outcomes of the two
outbound calls.  The income filter (collected at lines 105-112) is never
referenced after collection. -/
def analyzeClient (t : Table) (cid : ℚ) (threshold : ℚ) (ageF : ℕ × ℕ)
    (incomeF : ℚ × ℚ) (fx fy : String)
    (pOut : CallOutcome PredictResult) (eOut : CallOutcome ExplainPayload) :
    AnalysisOutput :=
  match findClientRow t cid with
  | none => ⟨[analysisErrorEvent], false⟩
  | some row =>
    match pOut with
    | .raised => ⟨[analysisErrorEvent], false⟩
    | .resp status body =>
      if status = 200 then
        match body with
        | none => ⟨[analysisErrorEvent], false⟩
        | some result => renderAfterPredict t row threshold result ageF fx fy eOut
      else ⟨[apiErrorEvent status], false⟩

/-- Outcome of a startup-time step: the call raised, or returned a value. -/
inductive ApiResult (α : Type) where
  | raised
  | ok (value : α)
deriving DecidableEq

/-- What the startup prologue leaves behind: whether `st.stop` halted
rendering, the decision threshold in force, and the messages shown. -/
structure StartupState where
  halted : Bool
  threshold : ℚ
  events : List RenderEvent
deriving DecidableEq

/-- app.py line 35: default threshold before the API is consulted. -/
def DEFAULT_THRESHOLD : ℚ := 9 / 100

/-- app.py lines 38-43: `GET /status`; any exception yields False, otherwise
the flag compares the status field with "operational". -/
def api_ok (health : ApiResult String) : Bool :=
  match health with
  | .ok s => decide (s = "operational")
  | .raised => false

/-- app.py lines 38-77: the startup prologue.  `health` is the outcome of
`GET /status` (`ok` carries the parsed status field), `modelInfo` the
outcome of `GET /model/info` (`ok` carries the `optimal_threshold` field if
present), `dataset` the CSV load result (`none` when unreadable). -/
def startup (health : ApiResult String) (modelInfo : ApiResult (Option ℚ))
    (dataset : Option Table) : StartupState :=
  if api_ok health then
    let tw : ℚ × RenderEvent :=
      match modelInfo with
      | .ok (some q) => (q, .successMsg "Modele connecte")
      | .ok none => (DEFAULT_THRESHOLD, .successMsg "Modele connecte")
      | .raised => (DEFAULT_THRESHOLD, .warningMsg "Modele en chargement")
    match dataset with
    | none =>
      ⟨true, tw.1, [tw.2, .errorMsg "Erreur chargement donnees",
        .errorMsg "Donnees non disponibles"]⟩
    | some _ => ⟨false, tw.1, [tw.2]⟩
  else ⟨true, DEFAULT_THRESHOLD, [.errorMsg "API non accessible"]⟩

/-- The explanation call failed: the request raised, the status was not 200,
or the 200 body was not parseable (app.py lines 387-410, both the non-200
branch and the except branch). -/
def explainFailed (e : CallOutcome ExplainPayload) : Bool :=
  match e with
  | .raised => true
  | .resp status body => decide (status ≠ 200) || body.isNone

/-- Filtering a list of pairs on the first component commutes with projecting
to first components. -/
theorem length_filter_fst {α β : Type} (l : List (α × β)) (p : α → Bool) :
    (l.filter (fun x => p x.1)).length = ((l.map Prod.fst).filter p).length := by
  induction l with
  | nil => rfl
  | cons a l ih =>
    simp only [List.filter_cons, List.map_cons]
    cases h : p a.1 <;> simp [ih]

/-- A filter and its complement split the length of a list. -/
theorem length_filter_not_add {α : Type} (p : α → Bool) (l : List α) :
    (l.filter (fun x => !p x)).length + (l.filter p).length = l.length := by
  induction l with
  | nil => rfl
  | cons a l ih =>
    simp only [List.filter_cons]
    cases h : p a <;> simp [h] <;> omega

/-- On a duplicate-free list, the elements kept by membership in a
duplicate-free sublist `D` are exactly `D` many. -/
theorem length_filter_mem {l D : List String} (hl : l.Nodup) (hD : D.Nodup)
    (hsub : ∀ d ∈ D, d ∈ l) :
    (l.filter (fun c => decide (c ∈ D))).length = D.length := by
  have h1 : (l.filter (fun c => decide (c ∈ D))).Nodup := hl.filter _
  have h2 : (l.filter (fun c => decide (c ∈ D))).toFinset = D.toFinset := by
    ext x
    simp only [List.mem_toFinset, List.mem_filter, decide_eq_true_eq]
    exact ⟨fun h => h.2, fun h => ⟨hsub x h, h⟩⟩
  calc (l.filter (fun c => decide (c ∈ D))).length
      = (l.filter (fun c => decide (c ∈ D))).toFinset.card :=
        (List.toFinset_card_of_nodup h1).symm
    _ = D.toFinset.card := by rw [h2]
    _ = D.length := List.toFinset_card_of_nodup hD

/-- On a duplicate-free row, selecting by the label list `features_list`
(pandas label indexing) agrees with filtering the row in place. -/
theorem filterMap_rowGet (row : Row) (p : String → Bool)
    (hnd : (row.map Prod.fst).Nodup) :
    ((row.map Prod.fst).filter p).filterMap (fun c => rowGet row c)
      = (row.filter (fun pr => p pr.1)).map Prod.snd := by
  induction row with
  | nil => rfl
  | cons a l ih =>
    simp only [List.map_cons, List.nodup_cons] at hnd
    have hga : rowGet (a :: l) a.1 = some a.2 := by
      simp [rowGet, List.find?_cons]
    have hgl : ∀ c ∈ (l.map Prod.fst).filter p, rowGet (a :: l) c = rowGet l c := by
      intro c hc
      have hcl : c ∈ l.map Prod.fst := (List.mem_filter.mp hc).1
      have hne : ¬(a.1 = c) := fun h => hnd.1 (h ▸ hcl)
      simp [rowGet, List.find?_cons, hne]
    have hcongr : ((l.map Prod.fst).filter p).filterMap (fun c => rowGet (a :: l) c)
        = ((l.map Prod.fst).filter p).filterMap (fun c => rowGet l c) :=
      List.filterMap_congr hgl
    simp only [List.map_cons, List.filter_cons]
    cases hpa : p a.1
    · simpa [hpa] using hcongr.trans (ih hnd.2)
    · simp only [hpa, if_true, List.filterMap_cons, hga]
      exact congrArg (List.cons a.2) (hcongr.trans (ih hnd.2))

/-- C1: for a row whose column names are duplicate-free and contain the four
reserved columns SK_ID_CURR, RISK_SCORE, DECISION, REAL_TARGET, the feature
vector built for the scoring request is the label-selection of the
non-reserved columns in table order, and its length is the total column
count minus 4. -/
theorem c1_feature_vector_length (row : Row)
    (hnd : (row.map Prod.fst).Nodup)
    (hmem : ∀ c ∈ features_to_drop, c ∈ row.map Prod.fst) :
    (features row).length = row.length - 4 ∧
    features row = (features_list row).filterMap (fun c => rowGet row c) := by
  have hsel : features row = (features_list row).filterMap (fun c => rowGet row c) := by
    unfold features features_list
    exact (filterMap_rowGet row (fun c => decide (c ∉ features_to_drop)) hnd).symm
  refine ⟨?_, hsel⟩
  have hfl : (features row).length
      = ((row.map Prod.fst).filter (fun c => decide (c ∉ features_to_drop))).length := by
    unfold features
    rw [List.length_map]
    exact length_filter_fst row (fun c => decide (c ∉ features_to_drop))
  have hsplit := length_filter_not_add
    (fun c => decide (c ∈ features_to_drop)) (row.map Prod.fst)
  have hmemlen : ((row.map Prod.fst).filter
      (fun c => decide (c ∈ features_to_drop))).length = 4 := by
    rw [length_filter_mem hnd (by decide) hmem]
    rfl
  have hnotconv : ((row.map Prod.fst).filter (fun c => decide (c ∉ features_to_drop)))
      = ((row.map Prod.fst).filter (fun c => !decide (c ∈ features_to_drop))) := by
    simp [decide_not]
  rw [hfl, hnotconv]
  rw [List.length_map] at hsplit
  omega

/-- Witness for C1 at the concrete row `exRow` (6 columns, 2 features). -/
theorem c1_feature_vector_length_witness :
    (features exRow).length = exRow.length - 4 ∧
    features exRow = (features_list exRow).filterMap (fun c => rowGet exRow c) :=
  c1_feature_vector_length exRow (by decide) (by decide)

/-- The mean of a non-empty list of rationals lying in [0,1] is in [0,1]. -/
theorem seriesMean_mem_unit (l : List ℚ) (hne : l ≠ [])
    (hb : ∀ x ∈ l, 0 ≤ x ∧ x ≤ 1) :
    ∃ m, seriesMean l = some m ∧ 0 ≤ m ∧ m ≤ 1 := by
  have hlen : 0 < l.length := List.length_pos.mpr hne
  have hlenq : (0 : ℚ) < l.length := by exact_mod_cast hlen
  refine ⟨l.sum / l.length, ?_, ?_, ?_⟩
  · simp [seriesMean, List.isEmpty_iff, hne]
  · exact div_nonneg (List.sum_nonneg fun x hx => (hb x hx).1) hlenq.le
  · rw [div_le_one hlenq]
    have h := List.sum_le_card_nsmul l 1 fun x hx => (hb x hx).2
    simpa using h

/-- The length of the modelled pandas sample is `min n (length t)`. -/
theorem sampleGo_length (n : ℕ) :
    ∀ (s : ℕ) (t : Table), (sampleGo s n t).length = min n t.length := by
  induction n with
  | zero => intro s t; simp [sampleGo]
  | succ n ih =>
    intro s t
    match t with
    | [] => simp [sampleGo]
    | r :: rs =>
      have hpos : 0 < (r :: rs).length := by simp
      have hlt : s % (r :: rs).length < (r :: rs).length := Nat.mod_lt s hpos
      have herase : ((r :: rs).eraseIdx (s % (r :: rs).length)).length
          = (r :: rs).length - 1 := by
        have h := List.length_eraseIdx_add_one hlt
        omega
      have hstep : (sampleGo s (n + 1) (r :: rs)).length
          = (sampleGo (lcgNext s) n ((r :: rs).eraseIdx (s % (r :: rs).length))).length
            + 1 := rfl
      rw [hstep, ih, herase]
      omega

/-- The gauge bar is green exactly below the threshold. -/
theorem gaugeBarColor_green_iff (risk threshold : ℚ) :
    gaugeBarColor risk threshold = "#00CC00" ↔ risk < threshold := by
  unfold gaugeBarColor
  by_cases h : threshold ≤ risk
  · rw [if_pos h]
    constructor
    · intro hc
      exact absurd hc (by decide)
    · intro hlt
      exact absurd h (not_le.mpr hlt)
  · rw [if_neg h]
    exact ⟨fun _ => lt_of_not_ge h, fun _ => rfl⟩

/-- The gauge bar is red exactly at or above the threshold. -/
theorem gaugeBarColor_red_iff (risk threshold : ℚ) :
    gaugeBarColor risk threshold = "#FF4B4B" ↔ threshold ≤ risk := by
  unfold gaugeBarColor
  by_cases h : threshold ≤ risk
  · rw [if_pos h]
    exact ⟨fun _ => h, fun _ => rfl⟩
  · rw [if_neg h]
    constructor
    · intro hc
      exact absurd hc (by decide)
    · intro hle
      exact absurd hle h

/-- The spec-modelled server decision is ACCORD exactly below the threshold. -/
theorem decision_rule_accord_iff (risk threshold : ℚ) :
    decision_rule risk threshold = "ACCORD" ↔ risk < threshold := by
  unfold decision_rule
  by_cases h : risk < threshold
  · rw [if_pos h]
    exact ⟨fun _ => h, fun _ => rfl⟩
  · rw [if_neg h]
    constructor
    · intro hc
      exact absurd hc (by decide)
    · intro hlt
      exact absurd hlt h

/-- The spec-modelled server decision is REFUS exactly at or above the
threshold. -/
theorem decision_rule_refus_iff (risk threshold : ℚ) :
    decision_rule risk threshold = "REFUS" ↔ threshold ≤ risk := by
  unfold decision_rule
  by_cases h : risk < threshold
  · rw [if_pos h]
    constructor
    · intro hc
      exact absurd hc (by decide)
    · intro hle
      exact absurd h (not_lt.mpr hle)
  · rw [if_neg h]
    exact ⟨fun _ => le_of_not_lt h, fun _ => rfl⟩

/-- C2: for every successful prediction the gauge bar colour is green exactly
when the risk score is strictly below the threshold (the ACCORD decision of
the scoring contract) and red otherwise (REFUS); in particular at threshold
9% and risk 5% the decision is ACCORD and the bar is green. -/
theorem c2_gauge_color_matches_decision :
    (∀ risk threshold : ℚ,
      (gaugeBarColor risk threshold = "#00CC00" ↔ risk < threshold) ∧
      (gaugeBarColor risk threshold = "#00CC00" ↔
        decision_rule risk threshold = "ACCORD") ∧
      (gaugeBarColor risk threshold = "#FF4B4B" ↔
        decision_rule risk threshold = "REFUS")) ∧
    decision_rule (1/20) (9/100) = "ACCORD" ∧
    gaugeBarColor (1/20) (9/100) = "#00CC00" := by
  refine ⟨fun risk threshold => ⟨gaugeBarColor_green_iff risk threshold, ?_, ?_⟩,
    (decision_rule_accord_iff (1/20) (9/100)).mpr (by norm_num),
    (gaugeBarColor_green_iff (1/20) (9/100)).mpr (by norm_num)⟩
  · exact (gaugeBarColor_green_iff risk threshold).trans
      (decision_rule_accord_iff risk threshold).symm
  · exact (gaugeBarColor_red_iff risk threshold).trans
      (decision_rule_refus_iff risk threshold).symm

/-- Rows of the filtered subset come from the full table. -/
theorem similar_clients_subset (t : Table) (ageMin ageMax : ℚ) :
    ∀ r ∈ similar_clients t ageMin ageMax, r ∈ t := by
  intro r hr
  unfold similar_clients at hr
  exact List.mem_of_mem_filter hr

/-- C3: on any non-empty age-filtered subset of a table whose RISK_SCORE
values lie in [0,1] and whose REAL_TARGET values are 0 or 1, all three group
aggregates are defined and lie in [0,1]. -/
theorem c3_aggregates_in_unit_interval (t : Table) (ageMin ageMax : ℚ)
    (hrisk : ∀ r ∈ t, ∃ q, getNum r "RISK_SCORE" = some q ∧ 0 ≤ q ∧ q ≤ 1)
    (htarget : ∀ r ∈ t,
      getNum r "REAL_TARGET" = some 0 ∨ getNum r "REAL_TARGET" = some 1)
    (hne : similar_clients t ageMin ageMax ≠ []) :
    (∃ m, avg_risk (similar_clients t ageMin ageMax) = some m ∧
      0 ≤ m ∧ m ≤ 1) ∧
    (∃ m, approval_rate (similar_clients t ageMin ageMax) = some m ∧
      0 ≤ m ∧ m ≤ 1) ∧
    (∃ m, default_rate (similar_clients t ageMin ageMax) = some m ∧
      0 ≤ m ∧ m ≤ 1) := by
  have hsubset := similar_clients_subset t ageMin ageMax
  obtain ⟨r0, hr0⟩ := List.exists_mem_of_ne_nil _ hne
  refine ⟨?_, ?_, ?_⟩
  · obtain ⟨q0, hq0, _, _⟩ := hrisk r0 (hsubset r0 hr0)
    have hmem0 : q0 ∈ colNum (similar_clients t ageMin ageMax) "RISK_SCORE" := by
      unfold colNum
      exact List.mem_filterMap.mpr ⟨r0, hr0, hq0⟩
    have hlne : colNum (similar_clients t ageMin ageMax) "RISK_SCORE" ≠ [] :=
      List.ne_nil_of_mem hmem0
    have hbounds : ∀ x ∈ colNum (similar_clients t ageMin ageMax) "RISK_SCORE",
        0 ≤ x ∧ x ≤ 1 := by
      intro x hx
      unfold colNum at hx
      obtain ⟨r, hr, hfx⟩ := List.mem_filterMap.mp hx
      obtain ⟨q, hq, h0, h1⟩ := hrisk r (hsubset r hr)
      rw [hq] at hfx
      obtain rfl : q = x := Option.some_injective ℚ hfx
      exact ⟨h0, h1⟩
    exact seriesMean_mem_unit _ hlne hbounds
  · have hlne : ((similar_clients t ageMin ageMax).map (fun r =>
        if rowGet r "DECISION" = some (Val.str "ACCORD") then (1 : ℚ) else 0)) ≠ [] := by
      simp only [ne_eq, List.map_eq_nil_iff]
      exact hne
    have hbounds : ∀ x ∈ ((similar_clients t ageMin ageMax).map (fun r =>
        if rowGet r "DECISION" = some (Val.str "ACCORD") then (1 : ℚ) else 0)),
        0 ≤ x ∧ x ≤ 1 := by
      intro x hx
      obtain ⟨r, _, hfx⟩ := List.mem_map.mp hx
      by_cases h : rowGet r "DECISION" = some (Val.str "ACCORD")
      · rw [if_pos h] at hfx
        rw [← hfx]
        norm_num
      · rw [if_neg h] at hfx
        rw [← hfx]
        norm_num
    exact seriesMean_mem_unit _ hlne hbounds
  · obtain ht0 | ht0 := htarget r0 (hsubset r0 hr0) <;>
    · have hmem0 : _ ∈ colNum (similar_clients t ageMin ageMax) "REAL_TARGET" :=
        List.mem_filterMap.mpr ⟨r0, hr0, ht0⟩
      have hlne : colNum (similar_clients t ageMin ageMax) "REAL_TARGET" ≠ [] :=
        List.ne_nil_of_mem hmem0
      have hbounds : ∀ x ∈ colNum (similar_clients t ageMin ageMax) "REAL_TARGET",
          0 ≤ x ∧ x ≤ 1 := by
        intro x hx
        unfold colNum at hx
        obtain ⟨r, hr, hfx⟩ := List.mem_filterMap.mp hx
        obtain hq | hq := htarget r (hsubset r hr) <;> rw [hq] at hfx <;>
          obtain rfl := Option.some_injective ℚ hfx <;> norm_num
      exact seriesMean_mem_unit _ hlne hbounds

/-- The derived age of the witness row is exactly 40 years. -/
theorem exRow_age : rowAge exRow = some 40 := by
  have h : getNum exRow "DAYS_BIRTH" = some (-14610) := rfl
  rw [rowAge, h]
  norm_num

/-- The witness row passes the 20-70 age filter. -/
theorem similar_exTable_20_70 : similar_clients exTable 20 70 = exTable := by
  norm_num [similar_clients, exTable, exRow_age]

/-- The witness row fails the 60-70 age filter. -/
theorem similar_exTable_60_70 : similar_clients exTable 60 70 = [] := by
  norm_num [similar_clients, exTable, exRow_age]

/-- Witness for C3: the one-row table `exTable` filtered to ages 20-70. -/
theorem c3_aggregates_in_unit_interval_witness :
    (∃ m, avg_risk (similar_clients exTable 20 70) = some m ∧
      0 ≤ m ∧ m ≤ 1) ∧
    (∃ m, approval_rate (similar_clients exTable 20 70) = some m ∧
      0 ≤ m ∧ m ≤ 1) ∧
    (∃ m, default_rate (similar_clients exTable 20 70) = some m ∧
      0 ≤ m ∧ m ≤ 1) := by
  refine c3_aggregates_in_unit_interval exTable 20 70 ?_ ?_
    (by rw [similar_exTable_20_70]; simp [exTable])
  · intro r hr
    simp only [exTable, List.mem_singleton] at hr
    subst hr
    exact ⟨1/20, rfl, by norm_num, by norm_num⟩
  · intro r hr
    simp only [exTable, List.mem_singleton] at hr
    subst hr
    left
    rfl

/-- C4: when the age filter selects an empty subset, all three group
aggregates evaluate to the NaN marker `none` rather than raising, and
section 5 still renders: the group-size banner shows 0 and the three metric
widgets carry the undefined value. -/
theorem c4_empty_subset_nan_safe (t : Table) (amin amax : ℕ)
    (hcol : tableHasCol t "DAYS_BIRTH" = true)
    (hempty : similar_clients t (amin : ℚ) (amax : ℚ) = []) :
    avg_risk (similar_clients t (amin : ℚ) (amax : ℚ)) = none ∧
    approval_rate (similar_clients t (amin : ℚ) (amax : ℚ)) = none ∧
    default_rate (similar_clients t (amin : ℚ) (amax : ℚ)) = none ∧
    section5Events t (amin, amax) =
      [.sectionHeader 5, .groupCount 0,
       .metric "Risque moyen du groupe" none,
       .metric "Taux acceptation" none,
       .metric "Taux de defaut reel" none] := by
  refine ⟨?_, ?_, ?_, ?_⟩
  · rw [hempty]
    rfl
  · rw [hempty]
    rfl
  · rw [hempty]
    rfl
  · unfold section5Events
    rw [hcol]
    simp only [if_true]
    rw [hempty]
    rfl

/-- Witness for C4: the one-row table with the 60-70 filter (row age 40). -/
theorem c4_empty_subset_nan_safe_witness :
    avg_risk (similar_clients exTable ((60 : ℕ) : ℚ) ((70 : ℕ) : ℚ)) = none ∧
    approval_rate (similar_clients exTable ((60 : ℕ) : ℚ) ((70 : ℕ) : ℚ)) = none ∧
    default_rate (similar_clients exTable ((60 : ℕ) : ℚ) ((70 : ℕ) : ℚ)) = none ∧
    section5Events exTable (60, 70) =
      [.sectionHeader 5, .groupCount 0,
       .metric "Risque moyen du groupe" none,
       .metric "Taux acceptation" none,
       .metric "Taux de defaut reel" none] :=
  c4_empty_subset_nan_safe exTable 60 70 (by decide)
    (by norm_num [similar_clients, exTable, exRow_age])

/-- C5: when the predict call answers with a non-200 status, the only
rendered event is the API error carrying that status; no analysis section is
rendered and the explanation endpoint is never called. -/
theorem c5_predict_error_aborts (t : Table) (row : Row) (cid threshold : ℚ)
    (ageF : ℕ × ℕ) (incomeF : ℚ × ℚ) (fx fy : String) (status : ℕ)
    (body : Option PredictResult) (eOut : CallOutcome ExplainPayload)
    (hrow : findClientRow t cid = some row)
    (hstatus : status ≠ 200) :
    analyzeClient t cid threshold ageF incomeF fx fy
        (.resp status body) eOut
      = ⟨[apiErrorEvent status], false⟩ := by
  unfold analyzeClient
  rw [hrow]
  simp only [if_neg hstatus]

/-- Witness for C5: client 100001 of the one-row table, a 500 answer. -/
theorem c5_predict_error_aborts_witness :
    analyzeClient exTable 100001 (9/100) (20, 70) (10, 15)
        "DAYS_BIRTH" "EXT_SOURCE_1" (.resp 500 none) .raised
      = ⟨[apiErrorEvent 500], false⟩ :=
  c5_predict_error_aborts exTable exRow 100001 (9/100) (20, 70) (10, 15)
    "DAYS_BIRTH" "EXT_SOURCE_1" 500 none .raised
    (by simp [findClientRow, exTable, exRow, getNum, rowGet])
    (by decide)

/-- C6: on a failing explanation call, section 6 renders exactly the section
header and one soft informational message, and the whole interaction output
is the already rendered prediction sections, that soft message, and the
final synthesis section; the explanation request was issued and its failure
never aborts the pipeline. -/
theorem c6_explain_failure_soft (t : Table) (row : Row) (threshold : ℚ)
    (result : PredictResult) (ageF : ℕ × ℕ) (fx fy : String)
    (eOut : CallOutcome ExplainPayload) (rt : ℚ) (dv xv yv : Val)
    (hrt : getNum row "REAL_TARGET" = some rt)
    (hdv : rowGet row "DECISION" = some dv)
    (hx : rowGet row fx = some xv) (hy : rowGet row fy = some yv)
    (hfail : explainFailed eOut = true) :
    ∃ m, section6Events eOut = [.sectionHeader 6, .infoMsg m] ∧
      renderAfterPredict t row threshold result ageF fx fy eOut =
        ⟨preExplainEvents t result.risk_score threshold result.decision rt ageF ++
          [.sectionHeader 6, .infoMsg m] ++ section7Events result.decision,
         true⟩ := by
  have hrender : renderAfterPredict t row threshold result ageF fx fy eOut =
      ⟨preExplainEvents t result.risk_score threshold result.decision rt ageF ++
        section6Events eOut ++ section7Events result.decision, true⟩ := by
    simp only [renderAfterPredict, hrt, hdv, hx, hy]
  obtain ⟨m, hm⟩ : ∃ m, section6Events eOut = [.sectionHeader 6, .infoMsg m] := by
    unfold section6Events
    cases eOut with
    | raised => exact ⟨"Feature importance locale non disponible", rfl⟩
    | resp status body =>
      by_cases hst : status = 200
      · subst hst
        cases body with
        | none => exact ⟨"Feature importance locale non disponible", by simp⟩
        | some p =>
          exfalso
          simp [explainFailed] at hfail
      · exact ⟨"Explication detaillee non disponible", by simp [hst]⟩
  exact ⟨m, hm, by rw [hrender, hm]⟩

/-- Witness for C6: a raised explanation call after a successful prediction
on the one-row table. -/
theorem c6_explain_failure_soft_witness :
    ∃ m, section6Events .raised = [.sectionHeader 6, .infoMsg m] ∧
      renderAfterPredict exTable exRow (9/100) ⟨1/20, "ACCORD"⟩ (20, 70)
          "DAYS_BIRTH" "EXT_SOURCE_1" .raised =
        ⟨preExplainEvents exTable (PredictResult.mk (1/20) "ACCORD").risk_score
            (9/100) (PredictResult.mk (1/20) "ACCORD").decision 0 (20, 70) ++
          [.sectionHeader 6, .infoMsg m] ++
          section7Events (PredictResult.mk (1/20) "ACCORD").decision,
         true⟩ :=
  c6_explain_failure_soft exTable exRow (9/100) ⟨1/20, "ACCORD"⟩ (20, 70)
    "DAYS_BIRTH" "EXT_SOURCE_1" .raised 0 (Val.str "ACCORD")
    (Val.num (-14610)) (Val.num (1/2)) rfl rfl rfl rfl rfl

/-- Counterexample to C7 as stated: the explanation call does NOT use a
longer timeout than the scoring call — both requests pass timeout=10
(app.py lines 129 and 387), so the strict inequality fails. -/
theorem c7_longer_timeout_counterexample :
    explain_timeout = 10 ∧ predict_timeout = 10 ∧
    ¬ predict_timeout < explain_timeout := by
  exact ⟨rfl, rfl, by decide⟩

/-- C7 (amended): for every analyzed client the body sent to the explanation
endpoint is exactly the feature vector previously sent to the scoring
endpoint, and the explanation call uses the same 10-second timeout as the
scoring call, not a longer one. -/
theorem c7_same_body_same_timeout (row : Row) :
    explain_request_body row = predict_request_body row ∧
    explain_timeout = predict_timeout :=
  ⟨rfl, rfl⟩

/-- C8: the income-range filter value has no effect on the interaction: with
every other input held fixed, any two settings of the income slider produce
identical outputs (identical event traces, hence identical comparison subset
and aggregates).  The filter is read at app.py lines 105-112 and never used
afterwards. -/
theorem c8_income_filter_no_effect (t : Table) (cid threshold : ℚ)
    (ageF : ℕ × ℕ) (inc1 inc2 : ℚ × ℚ) (fx fy : String)
    (pOut : CallOutcome PredictResult) (eOut : CallOutcome ExplainPayload) :
    analyzeClient t cid threshold ageF inc1 fx fy pOut eOut =
    analyzeClient t cid threshold ageF inc2 fx fy pOut eOut := rfl

/-- C9: exactly two failure kinds halt startup rendering: a health check
that raises or does not report "operational", and an unreadable dataset.  A
failing model-metadata call is non-fatal: it leaves the default 9% threshold
in force and shows only a warning. -/
theorem c9_startup_fatal_cases (health : ApiResult String)
    (modelInfo : ApiResult (Option ℚ)) (dataset : Option Table) :
    ((startup health modelInfo dataset).halted = true ↔
      (api_ok health = false ∨ dataset = none)) ∧
    (api_ok health = true → ∀ t, dataset = some t → modelInfo = .raised →
      (startup health modelInfo dataset).halted = false ∧
      (startup health modelInfo dataset).threshold = DEFAULT_THRESHOLD ∧
      (startup health modelInfo dataset).events =
        [.warningMsg "Modele en chargement"]) := by
  constructor
  · unfold startup
    cases hh : api_ok health with
    | false => simp
    | true =>
      cases dataset with
      | none => simp
      | some t => simp
  · intro hok t hds hmi
    subst hds
    subst hmi
    unfold startup
    rw [hok]
    simp

/-- Witness for C9: operational health, raised model-info call, readable
dataset — startup does not halt, keeps the 9% default, warns. -/
theorem c9_startup_fatal_cases_witness :
    (startup (.ok "operational") .raised (some exTable)).halted = false ∧
    (startup (.ok "operational") .raised (some exTable)).threshold
      = DEFAULT_THRESHOLD ∧
    (startup (.ok "operational") .raised (some exTable)).events
      = [.warningMsg "Modele en chargement"] :=
  (c9_startup_fatal_cases (.ok "operational") .raised (some exTable)).2
    (by decide) exTable rfl rfl

/-- Section 1 renders no scatter sample. -/
theorem scatter_not_in_section1 (risk threshold : ℚ) (d : String) (rt : ℚ)
    (s : Table) : RenderEvent.scatterSample s ∉ section1Events risk threshold d rt := by
  simp [section1Events]

/-- Section 2 renders no scatter sample. -/
theorem scatter_not_in_section2 (risk threshold : ℚ) (s : Table) :
    RenderEvent.scatterSample s ∉ section2Events risk threshold := by
  simp [section2Events]

/-- Section 3 renders no scatter sample. -/
theorem scatter_not_in_section3 (s : Table) :
    RenderEvent.scatterSample s ∉ section3Events := by
  simp [section3Events]

/-- The only scatter sample of section 4 is the seeded sample of the frame. -/
theorem scatter_in_section4 (t s : Table) :
    RenderEvent.scatterSample s ∈ section4Events t → s = sampleTable t := by
  simp [section4Events]

/-- Section 5 renders no scatter sample. -/
theorem scatter_not_in_section5 (t : Table) (ageF : ℕ × ℕ) (s : Table) :
    RenderEvent.scatterSample s ∉ section5Events t ageF := by
  unfold section5Events
  split <;> simp

/-- Section 6 renders no scatter sample. -/
theorem scatter_not_in_section6 (e : CallOutcome ExplainPayload) (s : Table) :
    RenderEvent.scatterSample s ∉ section6Events e := by
  unfold section6Events
  cases e with
  | raised => simp
  | resp status body =>
    by_cases h : status = 200
    · subst h
      cases body <;> simp
    · simp [h]

/-- Section 7 renders no scatter sample. -/
theorem scatter_not_in_section7 (d : String) (s : Table) :
    RenderEvent.scatterSample s ∉ section7Events d := by
  unfold section7Events
  by_cases h : d = "ACCORD" <;> simp [h]

/-- C10: the comparison population of the bi-variate scatter plot is
deterministic: every scatter sample rendered by an interaction equals
`sampleTable t`, a function of the loaded table alone (seed 42 fixed in the
source), independently of the selected client, the filters and the API
responses — so any two runs on the same table display the identical subset —
and its size is min(1000, table size). -/
theorem c10_sample_seed_deterministic :
    (∀ (t : Table) (cid threshold : ℚ) (ageF : ℕ × ℕ) (incomeF : ℚ × ℚ)
        (fx fy : String) (pOut : CallOutcome PredictResult)
        (eOut : CallOutcome ExplainPayload) (s : Table),
      RenderEvent.scatterSample s ∈
        (analyzeClient t cid threshold ageF incomeF fx fy pOut eOut).events →
      s = sampleTable t) ∧
    (∀ t : Table, (sampleTable t).length = min 1000 t.length) := by
  constructor
  · intro t cid threshold ageF incomeF fx fy pOut eOut s hmem
    unfold analyzeClient at hmem
    cases hrow : findClientRow t cid with
    | none =>
      simp only [hrow] at hmem
      simp [analysisErrorEvent] at hmem
    | some row =>
      simp only [hrow] at hmem
      cases pOut with
      | raised => simp [analysisErrorEvent] at hmem
      | resp status body =>
        by_cases hst : status = 200
        · simp only [if_pos hst] at hmem
          cases body with
          | none => simp [analysisErrorEvent] at hmem
          | some result =>
            unfold renderAfterPredict at hmem
            cases hrt : getNum row "REAL_TARGET" with
            | none =>
              simp only [hrt] at hmem
              simp [analysisErrorEvent] at hmem
            | some rt =>
              simp only [hrt] at hmem
              cases hdv : rowGet row "DECISION" with
              | none =>
                simp only [hdv] at hmem
                simp [section1Events, section2Events, analysisErrorEvent] at hmem
              | some dv =>
                simp only [hdv] at hmem
                cases hx : rowGet row fx with
                | none =>
                  simp only [hx] at hmem
                  simp [section1Events, section2Events, section3Events,
                    analysisErrorEvent] at hmem
                | some xv =>
                  simp only [hx] at hmem
                  cases hy : rowGet row fy with
                  | none =>
                    simp only [hy] at hmem
                    simp [section1Events, section2Events, section3Events,
                      analysisErrorEvent] at hmem
                  | some yv =>
                    simp only [hy] at hmem
                    rcases List.mem_append.mp hmem with h12 | h7
                    · rcases List.mem_append.mp h12 with hpre | h6
                      · unfold preExplainEvents at hpre
                        rcases List.mem_cons.mp hpre with hhd | htl
                        · exact absurd hhd (by simp)
                        · rcases List.mem_append.mp htl with h1234 | h5
                          · rcases List.mem_append.mp h1234 with h123 | h4
                            · rcases List.mem_append.mp h123 with h12b | h3
                              · rcases List.mem_append.mp h12b with h1 | h2
                                · exact absurd h1
                                    (scatter_not_in_section1 _ _ _ _ _)
                                · exact absurd h2 (scatter_not_in_section2 _ _ _)
                              · exact absurd h3 (scatter_not_in_section3 _)
                            · exact scatter_in_section4 t s h4
                          · exact absurd h5 (scatter_not_in_section5 _ _ _)
                      · exact absurd h6 (scatter_not_in_section6 _ _)
                    · exact absurd h7 (scatter_not_in_section7 _ _)
        · simp only [if_neg hst] at hmem
          simp [apiErrorEvent] at hmem
  · intro t
    unfold sampleTable sample_size
    rw [sampleGo_length]
    omega

/-- Witness for C10: a full successful interaction on the one-row table does
render a scatter sample, and the theorem identifies it as the seeded sample
of the table. -/
theorem c10_sample_seed_deterministic_witness :
    RenderEvent.scatterSample (sampleTable exTable) ∈
      (analyzeClient exTable 100001 (9/100) (20, 70) (10, 15)
        "DAYS_BIRTH" "EXT_SOURCE_1"
        (.resp 200 (some ⟨1/20, "ACCORD"⟩)) .raised).events ∧
    sampleTable exTable = sampleTable exTable := by
  have hrow : findClientRow exTable 100001 = some exRow := by
    simp [findClientRow, exTable, exRow, getNum, rowGet]
  have h1 : getNum exRow "REAL_TARGET" = some 0 := rfl
  have h2 : rowGet exRow "DECISION" = some (Val.str "ACCORD") := rfl
  have h3 : rowGet exRow "DAYS_BIRTH" = some (Val.num (-14610)) := rfl
  have h4 : rowGet exRow "EXT_SOURCE_1" = some (Val.num (1/2)) := rfl
  have hmem : RenderEvent.scatterSample (sampleTable exTable) ∈
      (analyzeClient exTable 100001 (9/100) (20, 70) (10, 15)
        "DAYS_BIRTH" "EXT_SOURCE_1"
        (.resp 200 (some ⟨1/20, "ACCORD"⟩)) .raised).events := by
    simp only [analyzeClient, hrow, renderAfterPredict, h1, h2, h3, h4,
      if_pos rfl]
    apply List.mem_append_left
    apply List.mem_append_left
    unfold preExplainEvents
    apply List.mem_cons_of_mem
    apply List.mem_append_left
    apply List.mem_append_right
    simp [section4Events]
  exact ⟨hmem,
    c10_sample_seed_deterministic.1 exTable 100001 (9/100) (20, 70) (10, 15)
      "DAYS_BIRTH" "EXT_SOURCE_1" (.resp 200 (some ⟨1/20, "ACCORD"⟩)) .raised
      (sampleTable exTable) hmem⟩
